import Mathlib

/-!
Shallow embedding of the lugo4py streaming client (src/lugo4py/client.py and
src/lugo4py/rl/helper_bots.py): the per-connection receive loop, the
play_as_bot role dispatch, session start and stop. Enumerations and wire
types that live outside the provided sources (the lugo proto module and the
generated server_pb2 classes) are modelled from the specification, as noted
on each such definition.
-/

namespace Lugo4py

/-- Modelled from the spec: the match-phase enumeration of the lugo proto
module is not among the provided sources. The spec lists the phases
JOINING, GETTING_READY (GET_READY in the code), LISTENING and OVER; JOINING
stands for any phase that matches no branch of the receive loop. -/
inductive State where
  | JOINING
  | GET_READY
  | LISTENING
  | OVER
deriving DecidableEq, Repr

/-- The slice of a server snapshot that the receive loop and the dispatcher
inspect: its match phase and its turn number (client.py reads snapshot.state
and snapshot.turn). -/
structure GameSnapshot where
  state : State
  turn : Nat
deriving DecidableEq, Repr

/-- Modelled from the spec: the directive kinds carried by an OrderSet
(move, kick, jump, catch); the generated proto classes are not among the
provided sources. -/
inductive Order where
  | move
  | kick
  | jump
  | catchBall
deriving DecidableEq, Repr

/-- Modelled from the spec: the server_pb2.OrderSet message, with the fields
the provided sources touch: the turn number, the ordered directives, and the
optional debug annotation (helper_bots.py writes debug_message). -/
structure OrderSet where
  turn : Nat
  orders : List Order
  debug_message : Option String
deriving DecidableEq, Repr

/-- Modelled from the spec: the truthiness test the receive loop applies to
the OrderSet before sending (the if orders: branch of client.py line 142).
Per the spec an OrderSet is empty, hence discarded and not sent, exactly
when it carries no directives; the turn stamp and the optional debug
annotation do not make it non-empty. -/
def OrderSet.isTruthy (o : OrderSet) : Bool :=
  !o.orders.isEmpty

/-- An exception raised by a turn handler (the except branch of client.py
line 138 catches it). -/
structure HandlerErr where
  msg : String
deriving DecidableEq, Repr

/-- The per-turn callback type of client.py line 19. A Python handler can
return an OrderSet, return None (modelled as Option), or raise (modelled as
Except.error). -/
abbrev RawTurnProcessor :=
  OrderSet → GameSnapshot → Except HandlerErr (Option OrderSet)

/-- client.py lines 134 and 135: the receive loop builds an empty OrderSet
and stamps it with the turn of the snapshot before the handler runs. -/
def initOrders (turn : Nat) : OrderSet :=
  { turn := turn, orders := [], debug_message := none }

/-- One observed iteration of the receive loop: the snapshot delivered by
the stream, together with the value of the play-finished flag as observed by
the check at client.py line 131 (true once stop has set it). -/
structure RInput where
  snapshot : GameSnapshot
  stopSet : Bool
deriving DecidableEq, Repr

/-- The observable effects accumulated by one run of the receive loop:
OrderSets passed to SendOrders in order, turns whose handler raised (the
bot processor error log at line 140), turns logged as did-not-return-orders
(line 145), invocations of the getting-ready handler (line 148), and
whether the play-finished event has been set (line 150). -/
structure WatcherState where
  sent : List OrderSet
  errorTurns : List Nat
  noOrderTurns : List Nat
  readyCount : Nat
  finished : Bool
deriving DecidableEq, Repr

/-- The state of a freshly started session: nothing sent, nothing logged,
play-finished not set. -/
def initialWatcherState : WatcherState :=
  { sent := [], errorTurns := [], noOrderTurns := [], readyCount := 0,
    finished := false }

/-- client.py lines 133 to 146: the LISTENING branch. An empty OrderSet is
stamped with the turn of the snapshot; the processor is applied; if it
raises, the error is logged and the variable keeps the stamped empty
OrderSet; then the truthiness test decides between SendOrders and the
did-not-return-orders log. -/
def listeningStep (proc : RawTurnProcessor) (st : WatcherState)
    (s : GameSnapshot) : WatcherState :=
  let orders0 := initOrders s.turn
  let resAndLog : Option OrderSet × Bool :=
    match proc orders0 s with
    | Except.ok r => (r, false)
    | Except.error _ => (some orders0, true)
  let st1 :=
    if resAndLog.2 then { st with errorTurns := st.errorTurns ++ [s.turn] }
    else st
  match resAndLog.1 with
  | some o =>
      if o.isTruthy then { st1 with sent := st1.sent ++ [o] }
      else { st1 with noOrderTurns := st1.noOrderTurns ++ [s.turn] }
  | none => { st1 with noOrderTurns := st1.noOrderTurns ++ [s.turn] }

/-- client.py lines 120 to 150, the method named with a leading underscore
in the source: the receive loop over the response iterator. Branch order as
in the source: OVER breaks, an observed stop flag breaks, LISTENING runs
the turn, GET_READY calls the ready handler, any other phase is ignored;
after the loop exits, by break or by exhaustion, the play-finished event is
set (line 150). -/
def response_watcher (proc : RawTurnProcessor) :
    List RInput → WatcherState → WatcherState
  | [], st => { st with finished := true }
  | inp :: rest, st =>
      if inp.snapshot.state = State.OVER then
        { st with finished := true }
      else if inp.stopSet then
        { st with finished := true }
      else if inp.snapshot.state = State.LISTENING then
        response_watcher proc rest (listeningStep proc st inp.snapshot)
      else if inp.snapshot.state = State.GET_READY then
        response_watcher proc rest { st with readyCount := st.readyCount + 1 }
      else
        response_watcher proc rest st

/-- Modelled from the spec: the PLAYER_STATE enumeration of interface.py is
not among the provided sources; the spec defines exactly four roles for a
non-goalkeeper player, and the dispatch chain of client.py names these four
members. -/
inductive PLAYER_STATE where
  | DISPUTING_THE_BALL
  | DEFENDING
  | SUPPORTING
  | HOLDING_THE_BALL
deriving DecidableEq, Repr

/-- The five per-role callbacks of a Bot, as called by the processor of
play_as_bot (client.py lines 67 to 77). Each can return an OrderSet, return
None, or raise. -/
structure Bot where
  as_goalkeeper :
    OrderSet → GameSnapshot → PLAYER_STATE → Except HandlerErr (Option OrderSet)
  on_disputing : OrderSet → GameSnapshot → Except HandlerErr (Option OrderSet)
  on_defending : OrderSet → GameSnapshot → Except HandlerErr (Option OrderSet)
  on_supporting : OrderSet → GameSnapshot → Except HandlerErr (Option OrderSet)
  on_holding : OrderSet → GameSnapshot → Except HandlerErr (Option OrderSet)

/-- client.py lines 63 to 78: the processor closure built by play_as_bot.
define_state (the role classifier of snapshot.py, passed here as a
parameter since it is policy, not protocol) is applied first; jersey number
1 takes the goalkeeper branch; otherwise the elif chain selects the handler
matching the classified state, and if no branch matches the stamped
OrderSet is returned unchanged. -/
def bot_processor (bot : Bot)
    (define_state : GameSnapshot → Nat → Nat → PLAYER_STATE)
    (number teamSide : Nat) (orders : OrderSet) (snapshot : GameSnapshot) :
    Except HandlerErr (Option OrderSet) :=
  let player_state := define_state snapshot number teamSide
  if number = 1 then
    bot.as_goalkeeper orders snapshot player_state
  else if player_state = PLAYER_STATE.DISPUTING_THE_BALL then
    bot.on_disputing orders snapshot
  else if player_state = PLAYER_STATE.DEFENDING then
    bot.on_defending orders snapshot
  else if player_state = PLAYER_STATE.SUPPORTING then
    bot.on_supporting orders snapshot
  else if player_state = PLAYER_STATE.HOLDING_THE_BALL then
    bot.on_holding orders snapshot
  else
    Except.ok (some orders)

/-- A name for each of the five per-role callbacks of a Bot. -/
inductive HandlerTag where
  | goalkeeper
  | disputing
  | defending
  | supporting
  | holding
deriving DecidableEq, Repr

/-- The handler the elif chain of the processor selects for a classified
non-goalkeeper state. -/
def roleTag : PLAYER_STATE → HandlerTag
  | PLAYER_STATE.DISPUTING_THE_BALL => HandlerTag.disputing
  | PLAYER_STATE.DEFENDING => HandlerTag.defending
  | PLAYER_STATE.SUPPORTING => HandlerTag.supporting
  | PLAYER_STATE.HOLDING_THE_BALL => HandlerTag.holding

/-- Which of the five callbacks the branch structure of the processor
(client.py lines 66 to 77) selects: jersey number 1 first, then the elif
chain over the classified state; none when no branch matches. -/
def dispatchedHandler (define_state : GameSnapshot → Nat → Nat → PLAYER_STATE)
    (number teamSide : Nat) (snapshot : GameSnapshot) : Option HandlerTag :=
  let player_state := define_state snapshot number teamSide
  if number = 1 then some HandlerTag.goalkeeper
  else if player_state = PLAYER_STATE.DISPUTING_THE_BALL then
    some HandlerTag.disputing
  else if player_state = PLAYER_STATE.DEFENDING then some HandlerTag.defending
  else if player_state = PLAYER_STATE.SUPPORTING then
    some HandlerTag.supporting
  else if player_state = PLAYER_STATE.HOLDING_THE_BALL then
    some HandlerTag.holding
  else none

/-- Application of the callback named by a tag, used to state that the
processor calls exactly the selected handler. -/
def invoke (bot : Bot) (t : HandlerTag) (ps : PLAYER_STATE) (o : OrderSet)
    (s : GameSnapshot) : Except HandlerErr (Option OrderSet) :=
  match t with
  | HandlerTag.goalkeeper => bot.as_goalkeeper o s ps
  | HandlerTag.disputing => bot.on_disputing o s
  | HandlerTag.defending => bot.on_defending o s
  | HandlerTag.supporting => bot.on_supporting o s
  | HandlerTag.holding => bot.on_holding o s

/-- The connection environment of a session start: how many seconds pass
until the transport channel becomes ready, none meaning it never does. The
grpc channel itself is an external collaborator; only this readiness
outcome is visible to _bot_start. -/
structure ConnectEnv where
  channelReadyAfter : Option Nat
deriving DecidableEq, Repr

/-- The timeout passed to the channel readiness wait at client.py line 91. -/
def CHANNEL_READY_TIMEOUT : Nat := 5

/-- The failure raised by _bot_start when the readiness wait times out
(client.py line 93). -/
inductive StartError where
  | connectTimeout (msg : String)
deriving DecidableEq, Repr

/-- The join request fields built at client.py lines 98 to 103 that vary
per session. -/
structure JoinRequest where
  token : String
  team_side : Nat
  number : Nat
deriving DecidableEq, Repr

/-- The observable outcome of a successful _bot_start: the join request
sent, whether the on_join callback ran (line 106), and whether the
response watcher was submitted to the executor (line 107). -/
structure StartedSession where
  join_request : JoinRequest
  on_join_called : Bool
  watcher_submitted : Bool
deriving DecidableEq, Repr

/-- client.py lines 82 to 108: _bot_start. The channel readiness wait at
line 91 is bounded by CHANNEL_READY_TIMEOUT seconds; a timeout raises at
line 93 and nothing further runs, with no retry. On readiness the join
request is sent, on_join is called and the response watcher is submitted. -/
def bot_start (env : ConnectEnv) (token : String) (teamSide number : Nat) :
    Except StartError StartedSession :=
  let ready :=
    match env.channelReadyAfter with
    | some t => decide (t ≤ CHANNEL_READY_TIMEOUT)
    | none => false
  if ready then
    Except.ok
      { join_request := { token := token, team_side := teamSide, number := number },
        on_join_called := true, watcher_submitted := true }
  else
    Except.error
      (StartError.connectTimeout
        "timed out waiting to connect to the game server")

/-- client.py lines 53 to 57: play stores the callback and delegates to
_bot_start; a failure of _bot_start propagates to the caller of play. -/
def play (env : ConnectEnv) (token : String) (teamSide number : Nat) :
    Except StartError StartedSession :=
  bot_start env token teamSide number

/-- The fields of a LugoClient that stop and wait touch: the future
returned by executor.submit (none until _bot_start runs, client.py line
36) and the play-finished event (line 35). -/
structure LugoClientState where
  play_routine : Option Unit
  play_finished : Bool
deriving DecidableEq, Repr

/-- client.py lines 25 to 36: the constructor leaves play_routine as None
and the play-finished event unset. -/
def LugoClient.init : LugoClientState :=
  { play_routine := none, play_finished := false }

/-- A Python runtime error, here the AttributeError raised by calling a
method on None. -/
inductive PyError where
  | attributeError (msg : String)
deriving DecidableEq, Repr

/-- client.py lines 110 to 115: stop calls cancel on play_routine and then
sets the play-finished event. When play_routine is still None the cancel
call raises an AttributeError and the event is never set. -/
def LugoClientState.stop (st : LugoClientState) : Except PyError LugoClientState :=
  match st.play_routine with
  | none =>
      Except.error (PyError.attributeError "NoneType has no attribute cancel")
  | some _ => Except.ok { st with play_finished := true }

/-- client.py lines 117 and 118: wait blocks until the play-finished event
is set; it returns, unblocking the caller, exactly when the event is set. -/
def LugoClientState.wait_returns (st : LugoClientState) : Bool :=
  st.play_finished

/-! Concrete fixtures used to instantiate the theorems below. -/

/-- A LISTENING loop input for a given turn, stop flag unset. -/
def inpListening (t : Nat) : RInput :=
  { snapshot := { state := State.LISTENING, turn := t }, stopSet := false }

/-- A turn handler that always raises. -/
def procAlwaysRaise : RawTurnProcessor :=
  fun _ _ => Except.error { msg := "handler raised" }

/-- A turn handler that raises on turn 5 and otherwise returns the given
OrderSet with one move directive added, as in scenario C of the spec. -/
def procFailTurn5 : RawTurnProcessor := fun o s =>
  if s.turn = 5 then Except.error { msg := "turn five handler failure" }
  else
    Except.ok (some { turn := o.turn, orders := [Order.move],
                      debug_message := none })

/-- A turn handler that, like the zombie handler of helper_bots.py lines 38
to 41, only writes the debug annotation of the OrderSet it was given and
returns it with no directive. -/
def procZombie : RawTurnProcessor := fun o _ =>
  Except.ok (some { turn := o.turn, orders := [],
                    debug_message := some "zombie debug" })

/-- A turn handler that discards the stamped OrderSet and returns a fresh
one whose turn field is 42, regardless of the snapshot. -/
def procWrongTurn : RawTurnProcessor := fun _ _ =>
  Except.ok (some { turn := 42, orders := [Order.move],
                    debug_message := none })

/-- A turn handler that keeps the stamped turn and adds one kick. -/
def procEcho : RawTurnProcessor := fun o _ =>
  Except.ok (some { turn := o.turn, orders := [Order.kick],
                    debug_message := none })

/-- The claim that every OrderSet a session run sends from a fresh state
carries the turn of some LISTENING snapshot of the run. Stated from the
words of the spec for comparison with the source; refuted below. -/
def sentTurnEchoClaim : Prop :=
  ∀ (proc : RawTurnProcessor) (l : List RInput) (o : OrderSet),
    o ∈ (response_watcher proc l initialWatcherState).sent →
    ∃ inp, inp ∈ l ∧ inp.snapshot.state = State.LISTENING ∧
      o.turn = inp.snapshot.turn

/-! Theorems settling the claims. -/

/-- C2: once the stop signal is observed set at the top of the receive
loop, the loop exits at that observation point: the run ends with the
current state, the play-finished event set, and no OrderSet is sent for
that snapshot or for any snapshot after it. -/
theorem stop_signal_halts_loop (proc : RawTurnProcessor) (inp : RInput)
    (rest : List RInput) (st : WatcherState) (h : inp.stopSet = true) :
    response_watcher proc (inp :: rest) st = { st with finished := true } := by
  by_cases hov : inp.snapshot.state = State.OVER <;>
    simp [response_watcher, hov, h]

/-- Witness for C2 at a concrete run. -/
theorem stop_signal_halts_loop_witness :
    response_watcher procEcho
      [{ snapshot := { state := State.LISTENING, turn := 3 }, stopSet := true },
       inpListening 4]
      initialWatcherState = { initialWatcherState with finished := true } :=
  stop_signal_halts_loop _ _ _ _ rfl

/-- C8: a snapshot whose phase is OVER terminates the session normally: the
loop exits, the accumulated state is unchanged, and the play-finished event
is set; with OVER as the first snapshot, the session has sent nothing. -/
theorem over_terminates_session (proc : RawTurnProcessor) (inp : RInput)
    (rest : List RInput) (st : WatcherState)
    (h : inp.snapshot.state = State.OVER) :
    response_watcher proc (inp :: rest) st = { st with finished := true } := by
  simp [response_watcher, h]

/-- Witness for C8: OVER as the first message of a fresh session; the
resulting state has sent nothing and is finished. -/
theorem over_terminates_session_witness :
    response_watcher procEcho
      [{ snapshot := { state := State.OVER, turn := 1 }, stopSet := false },
       inpListening 2]
      initialWatcherState = { initialWatcherState with finished := true } :=
  over_terminates_session _ _ _ _ rfl

/-- C3: with jersey number 1 the processor of play_as_bot calls the
goalkeeper handler of the bot, whatever the snapshot, and the dispatch
outcome does not depend on the classifier: any two classifiers select the
goalkeeper handler. -/
theorem goalkeeper_short_circuit (bot : Bot)
    (ds ds2 : GameSnapshot → Nat → Nat → PLAYER_STATE) (teamSide : Nat)
    (o : OrderSet) (s : GameSnapshot) :
    bot_processor bot ds 1 teamSide o s =
        bot.as_goalkeeper o s (ds s 1 teamSide) ∧
      dispatchedHandler ds 1 teamSide s = some HandlerTag.goalkeeper ∧
      dispatchedHandler ds 1 teamSide s = dispatchedHandler ds2 1 teamSide s := by
  refine ⟨?_, ?_, ?_⟩ <;> simp [bot_processor, dispatchedHandler]

/-- C7: for every jersey number and classified state exactly one of the
five handlers is selected, the processor of play_as_bot calls exactly that
handler, and the selection is jersey number first, then the classified
state. -/
theorem exactly_one_handler_dispatched (bot : Bot)
    (ds : GameSnapshot → Nat → Nat → PLAYER_STATE) (number teamSide : Nat)
    (o : OrderSet) (s : GameSnapshot) :
    ∃ t, dispatchedHandler ds number teamSide s = some t ∧
      bot_processor bot ds number teamSide o s =
        invoke bot t (ds s number teamSide) o s ∧
      t = (if number = 1 then HandlerTag.goalkeeper
           else roleTag (ds s number teamSide)) := by
  by_cases h : number = 1
  · subst h
    exact ⟨HandlerTag.goalkeeper, by
      simp [dispatchedHandler, bot_processor, invoke]⟩
  · refine ⟨roleTag (ds s number teamSide), ?_, ?_, by simp [h]⟩ <;>
      cases hps : ds s number teamSide <;>
      simp [dispatchedHandler, bot_processor, invoke, roleTag, h, hps]

/-- C9: when the channel does not become ready within the five-second
timeout, starting the session fails with an error; the failure is the one
raised by the start routine itself, propagated to the caller of play, with
no retry. -/
theorem connect_timeout_fails_start (env : ConnectEnv) (token : String)
    (teamSide number : Nat)
    (h : ∀ t, env.channelReadyAfter = some t → CHANNEL_READY_TIMEOUT < t) :
    ∃ e, play env token teamSide number = Except.error e ∧
      bot_start env token teamSide number = Except.error e := by
  refine ⟨StartError.connectTimeout
    "timed out waiting to connect to the game server", ?_, ?_⟩ <;>
  · simp only [play, bot_start]
    cases henv : env.channelReadyAfter with
    | none => simp
    | some t =>
        have ht := h t henv
        simp [Nat.not_le.mpr ht]

/-- Witness for C9: a channel that never becomes ready. -/
theorem connect_timeout_fails_start_witness :
    ∃ e, play { channelReadyAfter := none } "token" 0 2 = Except.error e ∧
      bot_start { channelReadyAfter := none } "token" 0 2 = Except.error e :=
  connect_timeout_fails_start _ _ _ _ (fun _ ht => Option.noConfusion ht)

/-- C10: on a client on which play has never run, stop raises (cancel is
called on the play routine, still None from construction) before the
play-finished event is set, so wait would not return. -/
theorem stop_before_play_raises :
    (∃ e, LugoClient.init.stop = Except.error e) ∧
      LugoClient.init.wait_returns = false :=
  ⟨⟨PyError.attributeError "NoneType has no attribute cancel", rfl⟩, rfl⟩

/-- C1: when the handler raises on a LISTENING snapshot, the error is
caught and logged, the OrderSet kept for the turn is the stamped empty one,
which is not sent but logged as did-not-return-orders, and the loop
continues with the remaining inputs. -/
theorem handler_error_sends_no_orderset (proc : RawTurnProcessor)
    (st : WatcherState) (inp : RInput) (rest : List RInput) (e : HandlerErr)
    (hL : inp.snapshot.state = State.LISTENING)
    (hStop : inp.stopSet = false)
    (hErr : proc (initOrders inp.snapshot.turn) inp.snapshot =
      Except.error e) :
    response_watcher proc (inp :: rest) st =
      response_watcher proc rest
        { st with errorTurns := st.errorTurns ++ [inp.snapshot.turn],
                  noOrderTurns := st.noOrderTurns ++ [inp.snapshot.turn] } := by
  have hstep : listeningStep proc st inp.snapshot =
      { st with errorTurns := st.errorTurns ++ [inp.snapshot.turn],
                noOrderTurns := st.noOrderTurns ++ [inp.snapshot.turn] } := by
    simp only [listeningStep, hErr]
    simp [OrderSet.isTruthy, initOrders]
  simp [response_watcher, hL, hStop, hstep]

/-- Witness for C1: a handler that raises on turn 5; the turn is logged
and nothing is sent. -/
theorem handler_error_sends_no_orderset_witness :
    response_watcher procAlwaysRaise [inpListening 5] initialWatcherState =
      response_watcher procAlwaysRaise []
        { initialWatcherState with errorTurns := [5], noOrderTurns := [5] } :=
  handler_error_sends_no_orderset _ _ _ _ { msg := "handler raised" }
    rfl rfl rfl

/-- C5: on a LISTENING snapshot whose handler returns without raising, the
returned OrderSet is sent exactly when it is non-empty, emptiness being the
absence of directives: an OrderSet with no directive, or a handler that
returns nothing, is logged as did-not-return-orders and not sent. -/
theorem orderset_sent_iff_nonempty (proc : RawTurnProcessor)
    (st : WatcherState) (inp : RInput) (rest : List RInput)
    (r : Option OrderSet)
    (hL : inp.snapshot.state = State.LISTENING)
    (hStop : inp.stopSet = false)
    (hOk : proc (initOrders inp.snapshot.turn) inp.snapshot = Except.ok r) :
    response_watcher proc (inp :: rest) st =
      response_watcher proc rest
        (match r with
         | some o =>
             if o.orders.isEmpty then
               { st with noOrderTurns := st.noOrderTurns ++ [inp.snapshot.turn] }
             else { st with sent := st.sent ++ [o] }
         | none =>
             { st with noOrderTurns := st.noOrderTurns ++ [inp.snapshot.turn] }) := by
  have hstep : listeningStep proc st inp.snapshot =
      (match r with
       | some o =>
           if o.orders.isEmpty then
             { st with noOrderTurns := st.noOrderTurns ++ [inp.snapshot.turn] }
           else { st with sent := st.sent ++ [o] }
       | none =>
           { st with noOrderTurns := st.noOrderTurns ++ [inp.snapshot.turn] }) := by
    cases r with
    | none =>
        simp only [listeningStep, hOk]
        simp
    | some o =>
        cases ho : o.orders.isEmpty <;>
          · simp only [listeningStep, hOk]
            simp [OrderSet.isTruthy, ho]
  simp [response_watcher, hL, hStop, hstep]

/-- Witness for C5: a zombie-style handler returning a debug-only OrderSet
on turn 4; the result is logged as did-not-return-orders and not sent. -/
theorem orderset_sent_iff_nonempty_witness :
    response_watcher procZombie [inpListening 4] initialWatcherState =
      response_watcher procZombie []
        { initialWatcherState with noOrderTurns := [4] } :=
  orderset_sent_iff_nonempty _ _ _ _
    (some { turn := 4, orders := [], debug_message := some "zombie debug" })
    rfl rfl rfl

/-- C4: a handler exception never terminates the session. After the
handler raises on one LISTENING snapshot, the loop goes on, and the next
LISTENING snapshot whose handler returns a non-empty OrderSet gets it sent:
the run continues past both snapshots with exactly that OrderSet appended
to the sent list. -/
theorem handler_error_session_continues (proc : RawTurnProcessor)
    (st : WatcherState) (inp1 inp2 : RInput) (rest : List RInput)
    (e : HandlerErr) (o : OrderSet)
    (hL1 : inp1.snapshot.state = State.LISTENING)
    (hS1 : inp1.stopSet = false)
    (hErr : proc (initOrders inp1.snapshot.turn) inp1.snapshot =
      Except.error e)
    (hL2 : inp2.snapshot.state = State.LISTENING)
    (hS2 : inp2.stopSet = false)
    (hOk : proc (initOrders inp2.snapshot.turn) inp2.snapshot =
      Except.ok (some o))
    (hNonempty : o.orders ≠ []) :
    ∃ st2, response_watcher proc (inp1 :: inp2 :: rest) st =
        response_watcher proc rest st2 ∧ st2.sent = st.sent ++ [o] := by
  refine ⟨listeningStep proc (listeningStep proc st inp1.snapshot)
    inp2.snapshot, ?_, ?_⟩
  · simp [response_watcher, hL1, hS1, hL2, hS2]
  · have hempty : o.orders.isEmpty = false := by
      cases h : o.orders with
      | nil => exact absurd h hNonempty
      | cons a l => rfl
    have hstep1 : listeningStep proc st inp1.snapshot =
        { st with errorTurns := st.errorTurns ++ [inp1.snapshot.turn],
                  noOrderTurns := st.noOrderTurns ++ [inp1.snapshot.turn] } := by
      simp only [listeningStep, hErr]
      simp [OrderSet.isTruthy, initOrders]
    rw [hstep1]
    simp only [listeningStep, hOk]
    simp [OrderSet.isTruthy, hempty]

/-- Witness for C4, scenario C of the spec: the handler raises on turn 5,
and turn 6 is processed normally, its OrderSet sent. -/
theorem handler_error_session_continues_witness :
    ∃ st2, response_watcher procFailTurn5
        [inpListening 5, inpListening 6] initialWatcherState =
        response_watcher procFailTurn5 [] st2 ∧
      st2.sent = initialWatcherState.sent ++
        [{ turn := 6, orders := [Order.move], debug_message := none }] :=
  handler_error_session_continues _ _ _ _ _
    { msg := "turn five handler failure" } _ rfl rfl rfl rfl rfl rfl
    (by simp)

/-- What the LISTENING branch can do to the sent list: leave it unchanged,
or append exactly the OrderSet the handler returned without raising. -/
theorem listeningStep_sent (proc : RawTurnProcessor) (st : WatcherState)
    (s : GameSnapshot) :
    (listeningStep proc st s).sent = st.sent ∨
      ∃ o1, (listeningStep proc st s).sent = st.sent ++ [o1] ∧
        proc (initOrders s.turn) s = Except.ok (some o1) := by
  cases hp : proc (initOrders s.turn) s with
  | error e =>
      left
      simp only [listeningStep, hp]
      simp [OrderSet.isTruthy, initOrders]
  | ok r =>
      cases r with
      | none =>
          left
          simp only [listeningStep, hp]
          simp
      | some o1 =>
          cases ht : o1.isTruthy with
          | false =>
              left
              simp only [listeningStep, hp]
              simp [ht]
          | true =>
              right
              refine ⟨o1, ?_, rfl⟩
              simp only [listeningStep, hp]
              simp [ht]

/-- C6 as stated is refuted: a handler may return an OrderSet whose turn
field differs from the turn of every snapshot of the run, and the loop
sends it unchanged. Here the only snapshot has turn 5 and the sent
OrderSet carries turn 42. -/
theorem sent_turn_echo_counterexample : ¬ sentTurnEchoClaim := by
  intro h
  have hsent : (response_watcher procWrongTurn [inpListening 5]
      initialWatcherState).sent =
      [{ turn := 42, orders := [Order.move], debug_message := none }] := rfl
  have hmem : ({ turn := 42, orders := [Order.move], debug_message := none } : OrderSet) ∈
      (response_watcher procWrongTurn [inpListening 5]
        initialWatcherState).sent := by
    rw [hsent]
    exact List.mem_singleton_self _
  rcases h procWrongTurn [inpListening 5] _ hmem with ⟨inp, hin, _, hturn⟩
  have hinp : inp = inpListening 5 := by simpa using hin
  subst hinp
  exact absurd hturn (by decide)

/-- C6 amended: the loop stamps the OrderSet it builds with the turn of the
triggering snapshot before the handler runs, and whenever the handler
preserves the turn field of the OrderSet it receives, every OrderSet a run
sends beyond its starting state carries the turn of a LISTENING snapshot of
the run; nothing is ever sent from a non-LISTENING branch. -/
theorem sent_turn_echo_amended (proc : RawTurnProcessor) (l : List RInput)
    (st : WatcherState)
    (hpres : ∀ o s r, proc o s = Except.ok (some r) → r.turn = o.turn) :
    ∀ o ∈ (response_watcher proc l st).sent,
      o ∈ st.sent ∨
        ∃ inp, inp ∈ l ∧ inp.snapshot.state = State.LISTENING ∧
          o.turn = inp.snapshot.turn := by
  induction l generalizing st with
  | nil =>
      intro o ho
      left
      simpa [response_watcher] using ho
  | cons inp rest ih =>
      intro o ho
      by_cases hov : inp.snapshot.state = State.OVER
      · left
        simpa [response_watcher, hov] using ho
      by_cases hstop : inp.stopSet
      · left
        have : response_watcher proc (inp :: rest) st =
            { st with finished := true } := by
          simp [response_watcher, hov, hstop]
        rw [this] at ho
        exact ho
      by_cases hlis : inp.snapshot.state = State.LISTENING
      · have ho2 : o ∈ (response_watcher proc rest
            (listeningStep proc st inp.snapshot)).sent := by
          have : response_watcher proc (inp :: rest) st =
              response_watcher proc rest (listeningStep proc st inp.snapshot) := by
            simp [response_watcher, hov, hstop, hlis]
          rw [this] at ho
          exact ho
        rcases ih (listeningStep proc st inp.snapshot) o ho2 with
          hmem | ⟨inp2, h1, h2, h3⟩
        · rcases listeningStep_sent proc st inp.snapshot with
            heq | ⟨o1, heq, hpo⟩
          · rw [heq] at hmem
            left
            exact hmem
          · rw [heq] at hmem
            rcases List.mem_append.mp hmem with hmem1 | hmem2
            · left
              exact hmem1
            · have ho1 : o = o1 := by simpa using hmem2
              subst ho1
              right
              refine ⟨inp, List.mem_cons_self _ _, hlis, ?_⟩
              have := hpres _ _ _ hpo
              simpa [initOrders] using this
        · right
          exact ⟨inp2, List.mem_cons_of_mem _ h1, h2, h3⟩
      by_cases hrdy : inp.snapshot.state = State.GET_READY
      · have ho2 : o ∈ (response_watcher proc rest
            { st with readyCount := st.readyCount + 1 }).sent := by
          have : response_watcher proc (inp :: rest) st =
              response_watcher proc rest
                { st with readyCount := st.readyCount + 1 } := by
            simp [response_watcher, hov, hstop, hlis, hrdy]
          rw [this] at ho
          exact ho
        rcases ih { st with readyCount := st.readyCount + 1 } o ho2 with
          hmem | ⟨inp2, h1, h2, h3⟩
        · left
          exact hmem
        · right
          exact ⟨inp2, List.mem_cons_of_mem _ h1, h2, h3⟩
      · have ho2 : o ∈ (response_watcher proc rest st).sent := by
          have : response_watcher proc (inp :: rest) st =
              response_watcher proc rest st := by
            simp [response_watcher, hov, hstop, hlis, hrdy]
          rw [this] at ho
          exact ho
        rcases ih st o ho2 with hmem | ⟨inp2, h1, h2, h3⟩
        · left
          exact hmem
        · right
          exact ⟨inp2, List.mem_cons_of_mem _ h1, h2, h3⟩

/-- Witness for the amended C6: a turn-preserving handler on a single
LISTENING snapshot of turn 7; the sent OrderSet carries turn 7. -/
theorem sent_turn_echo_amended_witness :
    ({ turn := 7, orders := [Order.kick], debug_message := none } :
        OrderSet) ∈ initialWatcherState.sent ∨
      ∃ inp, inp ∈ [inpListening 7] ∧
        inp.snapshot.state = State.LISTENING ∧
        ({ turn := 7, orders := [Order.kick], debug_message := none } :
          OrderSet).turn = inp.snapshot.turn :=
  sent_turn_echo_amended procEcho [inpListening 7] initialWatcherState
    (fun o s r hr => by
      simp only [procEcho, Except.ok.injEq, Option.some.injEq] at hr
      rw [← hr]) _
    (by
      have hsent : (response_watcher procEcho [inpListening 7]
          initialWatcherState).sent =
          [{ turn := 7, orders := [Order.kick], debug_message := none }] := rfl
      rw [hsent]
      exact List.mem_singleton_self _)

end Lugo4py
